import Mathlib

/-!
# Verification of the ProcessPype service lifecycle core

A shallow embedding of the lifecycle/registration core of the ProcessPype
framework (`processpype/core/models.py`, `processpype/core/service.py`,
`processpype/core/application.py`, `processpype/core/config/models.py`,
`processpype/services/monitoring/service.py`), together with theorems about
its registration, configuration, start/stop and error-handling behaviour.

Python dictionaries (`status.metadata`, `Application._services`,
`ApplicationConfiguration.services`) are embedded as insertion-ordered
association lists with first-match lookup; `dict.update` replaces the value
of an existing key in place and appends new keys, which is exactly Python's
semantics. Exceptions are embedded as explicit error values returned next to
the mutated state (Python mutates objects in place even when an exception
escapes, so every operation returns the mutated state together with the
optional exception). Log emission is embedded as an explicit list of emitted
records where a claim depends on it.
-/

namespace Processpype

/-- First-match lookup in an association list, embedding Python `d.get(k)` /
`d[k]` on a dict whose keys are unique. -/
def alookup {α : Type} (l : List (String × α)) (k : String) : Option α :=
  match l with
  | [] => none
  | (k0, v) :: rest => if k0 = k then some v else alookup rest k

/-- Embedding of Python `d[k] = v` on an insertion-ordered dict: replace the
value at an existing key in place, append a fresh key at the end. -/
def setKey {α : Type} (l : List (String × α)) (kv : String × α) : List (String × α) :=
  match l with
  | [] => [kv]
  | (k0, v) :: rest => if k0 = kv.1 then (k0, kv.2) :: rest else (k0, v) :: setKey rest kv

/-- Embedding of Python `base.update(upd)`: write every binding of `upd`
into `base`, in order. -/
def dictUpdate {α : Type} (base upd : List (String × α)) : List (String × α) :=
  upd.foldl setKey base

/-- Number of entries of an association list carrying the key `k`. -/
def countKey {α : Type} (l : List (String × α)) (k : String) : Nat :=
  (l.filter (fun e => e.1 = k)).length

theorem alookup_append {α : Type} (l1 l2 : List (String × α)) (k : String) :
    alookup (l1 ++ l2) k =
      match alookup l1 k with
      | some v => some v
      | none => alookup l2 k := by
  induction l1 with
  | nil => simp [alookup]
  | cons hd tl ih =>
    obtain ⟨k0, v⟩ := hd
    by_cases h : k0 = k <;> simp [alookup, h, ih]

theorem alookup_setKey {α : Type} (l : List (String × α)) (k0 : String) (v0 : α)
    (k : String) :
    alookup (setKey l (k0, v0)) k = if k0 = k then some v0 else alookup l k := by
  induction l with
  | nil => simp [setKey, alookup]
  | cons hd tl ih =>
    obtain ⟨k1, v1⟩ := hd
    by_cases h1 : k1 = k0
    · subst h1
      by_cases h2 : k1 = k <;> simp [setKey, alookup, h2]
    · by_cases h2 : k1 = k
      · subst h2
        have : ¬ k0 = k1 := fun h => h1 h.symm
        simp [setKey, alookup, h1, this]
      · simp [setKey, alookup, h1, h2, ih]

theorem alookup_eq_none_iff {α : Type} (l : List (String × α)) (k : String) :
    alookup l k = none ↔ k ∉ l.map Prod.fst := by
  induction l with
  | nil => simp [alookup]
  | cons hd tl ih =>
    obtain ⟨k0, v⟩ := hd
    simp only [alookup, List.map_cons, List.mem_cons]
    by_cases h : k0 = k
    · simp [h]
    · have h2 : ¬ (k = k0) := fun he => h he.symm
      simp [h, h2, ih]

theorem alookup_dictUpdate_of_none {α : Type} (base upd : List (String × α))
    (k : String) (h : alookup upd k = none) :
    alookup (dictUpdate base upd) k = alookup base k := by
  induction upd generalizing base with
  | nil => simp [dictUpdate]
  | cons hd tl ih =>
    obtain ⟨k0, v0⟩ := hd
    simp only [alookup] at h
    by_cases hk : k0 = k
    · simp [hk] at h
    · simp only [hk, if_false] at h
      have step : dictUpdate base ((k0, v0) :: tl) = dictUpdate (setKey base (k0, v0)) tl := by
        simp [dictUpdate, List.foldl]
      rw [step, ih (setKey base (k0, v0)) h, alookup_setKey]
      simp [hk]

theorem alookup_dictUpdate_of_some {α : Type} (base upd : List (String × α))
    (k : String) (v : α) (hnd : (upd.map Prod.fst).Nodup)
    (h : alookup upd k = some v) :
    alookup (dictUpdate base upd) k = some v := by
  induction upd generalizing base with
  | nil => simp [alookup] at h
  | cons hd tl ih =>
    obtain ⟨k0, v0⟩ := hd
    have step : dictUpdate base ((k0, v0) :: tl) = dictUpdate (setKey base (k0, v0)) tl := by
      simp [dictUpdate, List.foldl]
    simp only [alookup] at h
    simp only [List.map_cons, List.nodup_cons] at hnd
    by_cases hk : k0 = k
    · rw [if_pos hk] at h
      have htl : alookup tl k = none := by
        rw [alookup_eq_none_iff, ← hk]
        exact hnd.1
      rw [step, alookup_dictUpdate_of_none _ _ _ htl, alookup_setKey, if_pos hk, h]
    · rw [if_neg hk] at h
      rw [step]
      exact ih (setKey base (k0, v0)) hnd.2 h

theorem countKey_eq_zero_of_alookup_none {α : Type} (l : List (String × α))
    (k : String) (h : alookup l k = none) : countKey l k = 0 := by
  induction l with
  | nil => simp [countKey]
  | cons hd tl ih =>
    obtain ⟨k0, v⟩ := hd
    simp only [alookup] at h
    by_cases hk : k0 = k
    · simp [hk] at h
    · simp only [hk, if_false] at h
      have := ih h
      simp only [countKey, List.filter] at this ⊢
      simp [hk, this]

/-- `ServiceState` from `processpype/core/models.py`: the lifecycle phase
enumeration. -/
inductive ServiceState where
  | INITIALIZED
  | STARTING
  | RUNNING
  | STOPPING
  | STOPPED
  | ERROR
deriving DecidableEq

/-- `ServiceStatus` from `processpype/core/models.py`: lifecycle state, an
optional error message, and a metadata dict (embedded as an association list,
values embedded as strings). -/
structure ServiceStatus where
  state : ServiceState
  error : Option String
  metadata : List (String × String)
deriving DecidableEq

/-- `ServiceConfiguration` from `processpype/core/config/models.py`, with the
pydantic field defaults (`enabled=True`, `autostart=False`, empty metadata). -/
structure ServiceConfiguration where
  name : Option String := none
  enabled : Bool := true
  autostart : Bool := false
  metadata : List (String × String) := []
deriving DecidableEq

/-- Removal of every non-overlapping occurrence of `"service"` from a list of
characters, scanning left to right — the embedding of Python
`s.replace("service", "")` at the fixed pattern used by
`Service.__init__`. The `fuel` argument (always called with the input's
length, which bounds the number of steps) makes the recursion structural. -/
def stripServiceFuel : Nat → List Char → List Char
  | 0, s => s
  | _ + 1, [] => []
  | fuel + 1, c :: rest =>
    if List.isPrefixOf "service".toList (c :: rest) then
      stripServiceFuel fuel (List.drop 6 rest)
    else
      c :: stripServiceFuel fuel rest

/-- Embedding of `self.__class__.__name__.lower().replace("service", "")`
from `Service.__init__` (`processpype/core/service.py`); the same derivation
is used by `register_service_class` in `processpype/services/__init__.py`.
Class names are ASCII, so per-character lowering matches Python `str.lower`. -/
def deriveName (className : String) : String :=
  String.mk (stripServiceFuel (className.toList.map Char.toLower).length
    (className.toList.map Char.toLower))

/-- A `Service` instance (`processpype/core/service.py`). The base class is
abstract; the concrete start/stop bodies follow `MonitoringService`
(`processpype/services/monitoring/service.py`), the repository's concrete
subclass, whose manager work (spawning the monitor task / cancelling it) is
embedded by the `managerStart`/`managerStop` fields: `none` means the work
succeeds, `some e` means it raises an exception rendered as `e`. The
`router`/logger wiring is external HTTP/logging machinery and is out of the
embedded state. -/
structure Service where
  name : String
  config : Option ServiceConfiguration
  status : ServiceStatus
  managerStart : Option String
  managerStop : Option String
deriving DecidableEq

namespace Service

/-- `Service.__init__`: `self._name = name or <derived>` (Python `or` treats
`None` and the empty string as the fallback case), fresh status
`{state: INITIALIZED, error: None, metadata: {}}`, no configuration stored. -/
def init (override : Option String) (className : String)
    (mStart mStop : Option String) : Service :=
  { name :=
      match override with
      | some n => if n = "" then deriveName className else n
      | none => deriveName className
    config := none
    status := { state := ServiceState.INITIALIZED, error := none, metadata := [] }
    managerStart := mStart
    managerStop := mStop }

/-- `Service.configure`: store the configuration and
`self.status.metadata.update(config.metadata)`. -/
def configure (s : Service) (cfg : ServiceConfiguration) : Service :=
  { s with
    config := some cfg
    status := { s.status with metadata := dictUpdate s.status.metadata cfg.metadata } }

/-- `Service.set_error`: `self.status.error = error; self.logger.error(error)`.
Returns the mutated service together with the emitted log records. -/
def setError (s : Service) (msg : String) : Service × List String :=
  ({ s with status := { s.status with error := some msg } }, [msg])

/-- The base-class body of `Service.start` (`processpype/core/service.py`
lines 94–99): `state = STARTING; error = None`. -/
def startBase (s : Service) : Service :=
  { s with status := { s.status with state := ServiceState.STARTING, error := none } }

/-- The base-class body of `Service.stop`: `state = STOPPING` (the error
field is left untouched). -/
def stopBase (s : Service) : Service :=
  { s with status := { s.status with state := ServiceState.STOPPING } }

/-- `MonitoringService.start`: `await super().start()`, then spawn the
monitor task and set `state = RUNNING`; if the manager work raises `e`, run
`set_error(f"Failed to start monitoring: {e}")` and re-raise `e`. The result
pairs the mutated service (Python mutates in place even when the exception
escapes) with the propagated exception, if any. -/
def startEx (s : Service) : Service × Option String :=
  match s.managerStart with
  | none =>
    ({ s.startBase with
        status := { s.startBase.status with state := ServiceState.RUNNING } }, none)
  | some e =>
    ((s.startBase.setError (s!"Failed to start monitoring: {e}")).1, some e)

/-- `MonitoringService.stop`: `await super().stop()`, cancel and await the
monitor task (swallowing only the cancellation signal), then
`state = STOPPED`; any other exception from awaiting the task propagates
with the state still STOPPING and no `set_error` call. -/
def stopEx (s : Service) : Service × Option String :=
  match s.managerStop with
  | none =>
    ({ s.stopBase with
        status := { s.stopBase.status with state := ServiceState.STOPPED } }, none)
  | some e => (s.stopBase, some e)

end Service

/-- The exceptions raised by the embedded code: `RuntimeError` and
`ValueError` from `Application` methods, `HTTPException(status, detail)`
from the HTTP handlers, and any exception escaping a service manager
(rendered as its message). -/
inductive PyError where
  | runtimeError (msg : String)
  | valueError (msg : String)
  | httpException (statusCode : Nat) (detail : String)
  | managerException (msg : String)
deriving DecidableEq

/-- The `Application` state from `processpype/core/application.py`:
`_setup_complete`, `_config.services` (the per-service configuration dict),
the `_services` registry (insertion-ordered), and the application-wide
`_state`. The FastAPI/uvicorn/logging objects are external collaborators
and carry no lifecycle state of their own. -/
structure App where
  setupComplete : Bool
  configServices : List (String × ServiceConfiguration)
  services : List (String × Service)
  state : ServiceState
deriving DecidableEq

namespace App

/-- The value stored and returned by a successful `register_service`: the
freshly instantiated service, configured from the matching entry of
`self._config.services` when one exists. -/
def configuredInit (app : App) (className : String) (override : Option String)
    (mStart mStop : Option String) : Service :=
  match alookup app.configServices (Service.init override className mStart mStop).name with
  | some cfg => (Service.init override className mStart mStop).configure cfg
  | none => Service.init override className mStart mStop

/-- `Application.register_service` (`processpype/core/application.py` lines
136–173): refuse before initialization; instantiate `service_class(name)`;
raise `ValueError` on a duplicate resulting name; otherwise configure from a
matching entry of `self._config.services` and store the service keyed by its
name. Returns the application (unchanged when an exception is raised, since
nothing was mutated before the raise) together with the outcome. -/
def registerService (app : App) (className : String) (override : Option String)
    (mStart mStop : Option String) : App × Except PyError Service :=
  if app.setupComplete = false then
    (app, Except.error (PyError.runtimeError
      "Application must be initialized before registering services"))
  else if (alookup app.services (Service.init override className mStart mStop).name).isSome then
    (app, Except.error (PyError.valueError
      (s!"Service {(Service.init override className mStart mStop).name} already registered")))
  else
    ({ app with services := app.services ++
        [((app.configuredInit className override mStart mStop).name,
          app.configuredInit className override mStart mStop)] },
      Except.ok (app.configuredInit className override mStart mStop))

/-- `Application.get_service` (lines 175–177): `self._services.get(name)`. -/
def getService (app : App) (name : String) : Option Service :=
  alookup app.services name

/-- `Application.start_service` (lines 179–189): refuse before
initialization; `ValueError` when the name is absent; otherwise delegate to
`service.start()` and let its exception propagate. The registry keeps the
service as mutated by the (possibly failing) start. -/
def startService (app : App) (name : String) : App × Option PyError :=
  if app.setupComplete = false then
    (app, some (PyError.runtimeError
      "Application must be initialized before starting services"))
  else
    match alookup app.services name with
    | none => (app, some (PyError.valueError (s!"Service {name} not found")))
    | some svc =>
      ({ app with services := setKey app.services (name, (svc.startEx).1) },
        ((svc.startEx).2).map PyError.managerException)

/-- The `POST /services/{name}/stop` handler (lines 120–134): 404 when the
name is absent; otherwise `await service.stop()`, and on an exception `e`
call `service.set_error(str(e))` and raise `HTTPException(500, str(e))`. -/
def stopServiceHandler (app : App) (name : String) :
    App × Except PyError (String × String) :=
  match alookup app.services name with
  | none =>
    (app, Except.error (PyError.httpException 404 (s!"Service {name} not found")))
  | some svc =>
    match svc.stopEx with
    | (s2, none) =>
      ({ app with services := setKey app.services (name, s2) },
        Except.ok ("stopped", name))
    | (s2, some e) =>
      ({ app with services := setKey app.services (name, ((s2.setError e).1)) },
        Except.error (PyError.httpException 500 e))

/-- The per-service step of the enabled-services loop in `Application.start`
(lines 202–207): start the service only when a configuration entry exists
for its registry key and that entry has `enabled == true`; an exception from
the start is caught (the loop continues). -/
def startStepService (cfgs : List (String × ServiceConfiguration))
    (name : String) (svc : Service) : Service :=
  match alookup cfgs name with
  | some cfg => if cfg.enabled then (svc.startEx).1 else svc
  | none => svc

/-- The log record emitted for one service by the enabled-services loop:
`f"Failed to start service {name}: {e}"` when the start raised, nothing
otherwise. -/
def startStepLog (cfgs : List (String × ServiceConfiguration))
    (name : String) (svc : Service) : List String :=
  match alookup cfgs name with
  | some cfg =>
    if cfg.enabled then
      match (svc.startEx).2 with
      | some e => [s!"Failed to start service {name}: {e}"]
      | none => []
    else []
  | none => []

/-- The enabled-services loop of `Application.start` (lines 202–207):
iterate the registry in insertion order; each iteration touches only its own
service and the loop catches every exception, so the loop is the in-order
image of the per-service step, and the call always returns normally, with
the caught failures appearing only in the returned log records. -/
def startEnabledServices (app : App) : App × List String :=
  ({ app with
      services := app.services.map (fun e => (e.1, startStepService app.configServices e.1 e.2)) },
    (app.services.map (fun e => startStepLog app.configServices e.1 e.2)).flatten)

/-- `Application.stop` (lines 226–241): return immediately before
initialization; otherwise set `state = STOPPING`, call `service.stop()` on
every registered service in insertion order catching and logging each
failure (`f"Failed to stop service {service.name}: {e}"`), then set
`state = STOPPED`. -/
def stop (app : App) : App × List String :=
  if app.setupComplete = false then (app, [])
  else
    ({ app with
        state := ServiceState.STOPPED
        services := app.services.map (fun e => (e.1, (e.2.stopEx).1)) },
      (app.services.map (fun e =>
        match (e.2.stopEx).2 with
        | some err => [s!"Failed to stop service {e.2.name}: {err}"]
        | none => [])).flatten)

end App

theorem alookup_map_entry {α β : Type} (f : String → α → β)
    (l : List (String × α)) (k : String) :
    alookup (l.map (fun e => (e.1, f e.1 e.2))) k = (alookup l k).map (f k) := by
  induction l with
  | nil => simp [alookup]
  | cons hd tl ih =>
    obtain ⟨k0, v⟩ := hd
    by_cases h : k0 = k
    · subst h
      simp [alookup]
    · simp [alookup, h, ih]

/-- The name derivation as the specification words it: the class name
lower-cased with only a trailing `"service"` suffix stripped. Stated for the
refinement comparison with `deriveName`, which embeds the code. -/
def trailingStripName (className : String) : String :=
  if List.isSuffixOf "service".toList (className.toList.map Char.toLower) then
    String.mk ((className.toList.map Char.toLower).take
      ((className.toList.map Char.toLower).length - 7))
  else
    String.mk (className.toList.map Char.toLower)

/-- C7: the claim as stated is false: the code removes every occurrence of
`"service"` from the lower-cased class name (Python `str.replace` replaces
all occurrences), not only a trailing suffix. On the class name
`"ServiceMonitorService"` the code yields `"monitor"`, while stripping only
the trailing suffix would yield `"servicemonitor"`. -/
theorem name_derivation_counterexample :
    (Service.init none "ServiceMonitorService" none none).name = "monitor"
    ∧ trailingStripName "ServiceMonitorService" = "servicemonitor"
    ∧ (Service.init none "ServiceMonitorService" none none).name ≠
        trailingStripName "ServiceMonitorService" := by
  refine ⟨by decide, by decide, by decide⟩

/-- C7 (amended): a `Service` constructed without an override (or with an
empty override, which Python's `or` treats the same way) is named by the
class name lower-cased with every non-overlapping occurrence of `"service"`
removed left to right; a non-empty override name is used verbatim. On the
repository's concrete class the derivation gives
`deriveName "MonitoringService" = "monitoring"`. -/
theorem name_derivation (className n : String) (hn : n ≠ "")
    (mS mSt : Option String) :
    (Service.init none className mS mSt).name = deriveName className
    ∧ (Service.init (some "") className mS mSt).name = deriveName className
    ∧ (Service.init (some n) className mS mSt).name = n
    ∧ deriveName "MonitoringService" = "monitoring" := by
  refine ⟨rfl, rfl, ?_, by decide⟩
  simp [Service.init, hn]

/-- Witness for `name_derivation` at the concrete override `"custom"` and
class name `"MonitoringService"`. -/
theorem name_derivation_witness :
    ("custom" : String) ≠ ""
    ∧ (Service.init (some "custom") "MonitoringService" none none).name = "custom"
    ∧ (Service.init none "MonitoringService" none none).name =
        deriveName "MonitoringService" :=
  ⟨by decide,
   (name_derivation "MonitoringService" "custom" (by decide) none none).2.2.1,
   (name_derivation "MonitoringService" "custom" (by decide) none none).1⟩

/-- C5: the claim as stated is false: `Service.set_error` only assigns
`status.error` and logs; it does not touch `status.state`. On a freshly
initialized service the state after `set_error("boom")` is still
INITIALIZED, not ERROR. -/
theorem set_error_counterexample :
    ((Service.init (some "db") "DatabaseService" none none).setError "boom").1.status.error
      = some "boom"
    ∧ ((Service.init (some "db") "DatabaseService" none none).setError "boom").1.status.state
      = ServiceState.INITIALIZED
    ∧ ServiceState.INITIALIZED ≠ ServiceState.ERROR := by
  refine ⟨by decide, by decide, by decide⟩

/-- C5 (amended): `set_error(m)` sets `status.error` to `m` and emits one
log record carrying `m`; it leaves `status.state` (and the rest of the
service) unchanged — in particular it does not force the state to ERROR. -/
theorem set_error_behavior (s : Service) (m : String) :
    (s.setError m).1.status.error = some m
    ∧ (s.setError m).2 = [m]
    ∧ (s.setError m).1.status.state = s.status.state
    ∧ (s.setError m).1.status.metadata = s.status.metadata
    ∧ (s.setError m).1.name = s.name
    ∧ (s.setError m).1.config = s.config := by
  simp [Service.setError]

/-- C4: the claimed invariant is false: `set_error` makes `status.error`
non-null without moving `status.state` to ERROR, so a freshly initialized
service carries a non-null error while its state is INITIALIZED. -/
theorem error_invariant_counterexample :
    (((Service.init (some "mon") "MonitoringService" none none).setError "disk full").1.status.error
      ≠ none)
    ∧ ((Service.init (some "mon") "MonitoringService" none none).setError "disk full").1.status.state
      ≠ ServiceState.ERROR := by
  refine ⟨by decide, by decide⟩

/-- C4 (amended): `status.error` can be non-null in any state, because
`set_error` records the message without changing the state; the error is
cleared by the (base) start transition, which assigns `error = None`, but a
stop transition leaves the error field untouched. -/
theorem error_state_decoupling (s : Service) (m : String) :
    (s.setError m).1.status.error = some m
    ∧ (s.setError m).1.status.state = s.status.state
    ∧ s.startBase.status.error = none
    ∧ s.startBase.status.state = ServiceState.STARTING
    ∧ s.stopBase.status.error = s.status.error
    ∧ s.stopBase.status.state = ServiceState.STOPPING := by
  simp [Service.setError, Service.startBase, Service.stopBase]

/-- C3: the src core has no configuration gate at all: `Service.start`
(base) neither defines `requires_configuration`/`is_configured` nor raises
any ConfigurationError; a never-configured service starts normally. The
repository's own tests (`tests/services/database/test_service.py`,
`tests/core/test_application.py`) expect a ConfigurationError machinery, so
the claim reflects the intent and the src code lacks it. This theorem
evaluates the embedded code at the failing input: a fresh unconfigured
service whose start raises nothing and reaches RUNNING instead of staying
INITIALIZED. -/
theorem unconfigured_start_succeeds :
    (Service.init (some "monitoring") "MonitoringService" none none).config = none
    ∧ (Service.init (some "monitoring") "MonitoringService" none none).status.state
        = ServiceState.INITIALIZED
    ∧ ((Service.init (some "monitoring") "MonitoringService" none none).startEx).2 = none
    ∧ ((Service.init (some "monitoring") "MonitoringService" none none).startEx).1.status.state
        = ServiceState.RUNNING := by
  refine ⟨by decide, by decide, by decide, by decide⟩

/-- C8: `configure(c1)` then `configure(c2)` stores `c2` and leaves
`status.metadata` as the last-write-wins merge: keys of `c2.metadata` carry
`c2`'s values, keys of `c1.metadata` absent from `c2.metadata` retain `c1`'s
values. The key-uniqueness hypotheses state that the metadata mappings are
dicts (Python dict keys are unique). -/
theorem configure_twice_merges (s : Service) (c1 c2 : ServiceConfiguration)
    (h1 : (c1.metadata.map Prod.fst).Nodup)
    (h2 : (c2.metadata.map Prod.fst).Nodup) :
    ((s.configure c1).configure c2).config = some c2
    ∧ (∀ k v, alookup c2.metadata k = some v →
        alookup ((s.configure c1).configure c2).status.metadata k = some v)
    ∧ (∀ k v, alookup c2.metadata k = none → alookup c1.metadata k = some v →
        alookup ((s.configure c1).configure c2).status.metadata k = some v) := by
  refine ⟨rfl, ?_, ?_⟩
  · intro k v hv
    exact alookup_dictUpdate_of_some _ _ _ _ h2 hv
  · intro k v hnone hv
    show alookup (dictUpdate (dictUpdate s.status.metadata c1.metadata) c2.metadata) k
      = some v
    rw [alookup_dictUpdate_of_none _ _ _ hnone]
    exact alookup_dictUpdate_of_some _ _ _ _ h1 hv

/-- Witness for `configure_twice_merges` on concrete configurations with an
overlapping key `"y"` and a non-overlapping key `"x"`. -/
theorem configure_twice_merges_witness :
    ((([("x", "1"), ("y", "2")] : List (String × String)).map Prod.fst).Nodup
      ∧ (([("y", "3"), ("z", "4")] : List (String × String)).map Prod.fst).Nodup)
    ∧ (((Service.init (some "svc") "AService" none none).configure
          { metadata := [("x", "1"), ("y", "2")] }).configure
          { metadata := [("y", "3"), ("z", "4")] }).config
        = some { metadata := [("y", "3"), ("z", "4")] }
    ∧ alookup (((Service.init (some "svc") "AService" none none).configure
          { metadata := [("x", "1"), ("y", "2")] }).configure
          { metadata := [("y", "3"), ("z", "4")] }).status.metadata "y" = some "3"
    ∧ alookup (((Service.init (some "svc") "AService" none none).configure
          { metadata := [("x", "1"), ("y", "2")] }).configure
          { metadata := [("y", "3"), ("z", "4")] }).status.metadata "x" = some "1" :=
  ⟨⟨by decide, by decide⟩,
   (configure_twice_merges (Service.init (some "svc") "AService" none none)
      { metadata := [("x", "1"), ("y", "2")] } { metadata := [("y", "3"), ("z", "4")] }
      (by decide) (by decide)).1,
   (configure_twice_merges (Service.init (some "svc") "AService" none none)
      { metadata := [("x", "1"), ("y", "2")] } { metadata := [("y", "3"), ("z", "4")] }
      (by decide) (by decide)).2.1 "y" "3" (by decide),
   (configure_twice_merges (Service.init (some "svc") "AService" none none)
      { metadata := [("x", "1"), ("y", "2")] } { metadata := [("y", "3"), ("z", "4")] }
      (by decide) (by decide)).2.2 "x" "1" (by decide) (by decide)⟩

/-- C6: on an initialized application, `start_service` on an absent name
raises `ValueError("Service {name} not found")` and the `POST stop` handler
answers HTTP 404 with the same detail; both leave the application — in
particular the registry and every registered service's status — exactly as
it was. -/
theorem missing_service_not_found (app : App) (name : String)
    (hset : app.setupComplete = true)
    (hmiss : alookup app.services name = none) :
    app.startService name =
      (app, some (PyError.valueError (s!"Service {name} not found")))
    ∧ app.stopServiceHandler name =
      (app, Except.error (PyError.httpException 404 (s!"Service {name} not found"))) := by
  constructor
  · simp [App.startService, hset, hmiss]
  · simp [App.stopServiceHandler, hmiss]

/-- Witness for `missing_service_not_found`: an application holding one
registered service `"a"`, queried for `"missing"`. -/
theorem missing_service_not_found_witness :
    (App.mk true [] [("a", Service.init (some "a") "AService" none none)]
        ServiceState.STOPPED).setupComplete = true
    ∧ alookup (App.mk true [] [("a", Service.init (some "a") "AService" none none)]
        ServiceState.STOPPED).services "missing" = none
    ∧ (App.mk true [] [("a", Service.init (some "a") "AService" none none)]
        ServiceState.STOPPED).startService "missing" =
      (App.mk true [] [("a", Service.init (some "a") "AService" none none)]
        ServiceState.STOPPED,
       some (PyError.valueError "Service missing not found")) :=
  ⟨rfl, by decide,
   (missing_service_not_found
      (App.mk true [] [("a", Service.init (some "a") "AService" none none)]
        ServiceState.STOPPED) "missing" rfl (by decide)).1⟩

/-- C10: before `initialize()` has completed (`_setup_complete` false), both
`register_service` and `start_service` raise `RuntimeError` and return the
application untouched (registry and all service statuses unchanged); once
setup is complete, neither operation can produce that `RuntimeError` — they
proceed to their normal behaviour. -/
theorem uninitialized_operations_blocked (app : App) (className name : String)
    (override mS mSt : Option String) :
    (app.setupComplete = false →
      app.registerService className override mS mSt =
        (app, Except.error (PyError.runtimeError
          "Application must be initialized before registering services"))
      ∧ app.startService name =
        (app, some (PyError.runtimeError
          "Application must be initialized before starting services")))
    ∧ (app.setupComplete = true →
      (∀ m, (app.registerService className override mS mSt).2 ≠
          Except.error (PyError.runtimeError m))
      ∧ (∀ m, (app.startService name).2 ≠ some (PyError.runtimeError m))) := by
  constructor
  · intro h
    constructor
    · simp [App.registerService, h]
    · simp [App.startService, h]
  · intro h
    constructor
    · intro m
      simp only [App.registerService, h]
      split
      · rename_i hbad
        exact absurd hbad (by decide)
      · split <;> simp
    · intro m
      simp only [App.startService, h]
      split
      · rename_i hbad
        exact absurd hbad (by decide)
      · split
        · simp
        · rename_i svc heq
          cases hr : (svc.startEx).2 <;> simp [hr]

/-- Witness for `uninitialized_operations_blocked`: a not-yet-initialized
application rejects registration with the `RuntimeError`, and an initialized
one never produces it. -/
theorem uninitialized_operations_blocked_witness :
    (App.mk false [] [] ServiceState.STOPPED).registerService
        "MonitoringService" none none none =
      (App.mk false [] [] ServiceState.STOPPED,
       Except.error (PyError.runtimeError
         "Application must be initialized before registering services"))
    ∧ ((App.mk true [] [] ServiceState.STOPPED).startService "x").2 ≠
        some (PyError.runtimeError
          "Application must be initialized before starting services") :=
  ⟨((uninitialized_operations_blocked (App.mk false [] [] ServiceState.STOPPED)
      "MonitoringService" "x" none none none).1 rfl).1,
   ((uninitialized_operations_blocked (App.mk true [] [] ServiceState.STOPPED)
      "MonitoringService" "x" none none none).2 rfl).2
     "Application must be initialized before starting services"⟩

theorem register_duplicate (app2 : App) (className2 : String)
    (override2 mS2 mSt2 : Option String)
    (hset2 : app2.setupComplete = true)
    (hdup : (alookup app2.services
      (Service.init override2 className2 mS2 mSt2).name).isSome = true) :
    app2.registerService className2 override2 mS2 mSt2 =
      (app2, Except.error (PyError.valueError
        (s!"Service {(Service.init override2 className2 mS2 mSt2).name} already registered"))) := by
  have hne2 : ¬ (app2.setupComplete = false) := by simp [hset2]
  simp only [App.registerService]
  rw [if_neg hne2, if_pos hdup]

/-- C1: on an initialized application, registering a service class under a
fresh resulting name returns the instance, `get_service` on that name finds
the same instance, the registry holds exactly one entry for the name, and a
second registration producing the same name raises
`ValueError("... already registered")` and leaves the application — hence
the registry and its single entry, still mapping to the first instance —
completely unchanged. -/
theorem register_then_get (app : App) (className : String)
    (override mS mSt : Option String)
    (hset : app.setupComplete = true)
    (hfresh : alookup app.services (Service.init override className mS mSt).name = none) :
    ∃ svc : Service,
      (app.registerService className override mS mSt).2 = Except.ok svc
      ∧ svc.name = (Service.init override className mS mSt).name
      ∧ ((app.registerService className override mS mSt).1).getService svc.name = some svc
      ∧ countKey ((app.registerService className override mS mSt).1).services svc.name = 1
      ∧ (∀ className2 override2 mS2 mSt2,
          (Service.init override2 className2 mS2 mSt2).name = svc.name →
          ((app.registerService className override mS mSt).1).registerService
              className2 override2 mS2 mSt2 =
            ((app.registerService className override mS mSt).1,
             Except.error (PyError.valueError
               (s!"Service {(Service.init override2 className2 mS2 mSt2).name} already registered")))) := by
  have hname : (app.configuredInit className override mS mSt).name
      = (Service.init override className mS mSt).name := by
    unfold App.configuredInit
    cases alookup app.configServices (Service.init override className mS mSt).name <;> rfl
  have hne : ¬ (app.setupComplete = false) := by simp [hset]
  have hnotsome : ¬ ((alookup app.services
      (Service.init override className mS mSt).name).isSome = true) := by
    simp [hfresh]
  have hreg : app.registerService className override mS mSt
      = ({ app with services := app.services ++
            [((app.configuredInit className override mS mSt).name,
              app.configuredInit className override mS mSt)] },
         Except.ok (app.configuredInit className override mS mSt)) := by
    simp only [App.registerService]
    rw [if_neg hne, if_neg hnotsome]
  have h0 : alookup app.services (app.configuredInit className override mS mSt).name
      = none := by rw [hname]; exact hfresh
  have hget : alookup (app.services ++
      [((app.configuredInit className override mS mSt).name,
        app.configuredInit className override mS mSt)])
      (app.configuredInit className override mS mSt).name
      = some (app.configuredInit className override mS mSt) := by
    rw [alookup_append, h0]
    simp [alookup]
  refine ⟨app.configuredInit className override mS mSt, ?_, hname, ?_, ?_, ?_⟩
  · rw [hreg]
  · rw [hreg]
    exact hget
  · rw [hreg]
    show countKey (app.services ++
      [((app.configuredInit className override mS mSt).name,
        app.configuredInit className override mS mSt)]) _ = 1
    have hz := countKey_eq_zero_of_alookup_none app.services _ h0
    simp only [countKey, List.filter_append, List.length_append] at hz ⊢
    rw [hz]
    simp [List.filter]
  · intro className2 override2 mS2 mSt2 hname2
    rw [hreg]
    apply register_duplicate
    · exact hset
    · show (alookup (app.services ++
        [((app.configuredInit className override mS mSt).name,
          app.configuredInit className override mS mSt)])
        (Service.init override2 className2 mS2 mSt2).name).isSome = true
      rw [hname2, hget]
      rfl

/-- Witness for `register_then_get`: registering `MonitoringService` on an
empty initialized application. -/
theorem register_then_get_witness :
    (App.mk true [] [] ServiceState.STOPPED).setupComplete = true
    ∧ alookup (App.mk true [] [] ServiceState.STOPPED).services
        (Service.init none "MonitoringService" none none).name = none
    ∧ ∃ svc : Service,
        ((App.mk true [] [] ServiceState.STOPPED).registerService
          "MonitoringService" none none none).2 = Except.ok svc :=
  ⟨rfl, by decide,
   match register_then_get (App.mk true [] [] ServiceState.STOPPED)
     "MonitoringService" none none none rfl (by decide) with
   | ⟨svc, h1, _, _, _, _⟩ => ⟨svc, h1⟩⟩

/-- A fresh service registered under the name `"a"`, with no configuration
entry and a manager whose start succeeds. -/
def scenarioServiceA : Service := Service.init (some "a") "AService" none none

/-- A fresh service registered under the name `"b"`, with no configuration
entry and a manager whose start succeeds. -/
def scenarioServiceB : Service := Service.init (some "b") "BService" none none

/-- An initialized application with services `"a"` and `"b"` registered and
no service configuration entries at all. -/
def scenarioApp : App :=
  App.mk true [] [("a", scenarioServiceA), ("b", scenarioServiceB)] ServiceState.STOPPED

/-- C9: a registered service with no configuration entry is skipped by the
enabled-services loop and keeps its status verbatim; concretely, with the
unconfigured services `"a"` and `"b"` the loop is a no-op on the whole
application, while an explicit `start_service("a")` afterwards moves exactly
`"a"` to RUNNING, leaves `"b"` at INITIALIZED, and raises nothing. -/
theorem unconfigured_not_autostarted (app : App) (name : String) (svc : Service)
    (hmem : alookup app.services name = some svc)
    (hnocfg : alookup app.configServices name = none) :
    alookup ((app.startEnabledServices).1).services name = some svc
    ∧ (scenarioApp.startEnabledServices).1 = scenarioApp
    ∧ (scenarioApp.startService "a").1.getService "a" =
        some { scenarioServiceA with status := { scenarioServiceA.status with
          state := ServiceState.RUNNING, error := none } }
    ∧ (scenarioApp.startService "a").1.getService "b" = some scenarioServiceB
    ∧ (scenarioApp.startService "a").2 = none := by
  refine ⟨?_, by decide, by decide, by decide, by decide⟩
  rw [show ((app.startEnabledServices).1).services = app.services.map
      (fun e => (e.1, App.startStepService app.configServices e.1 e.2)) from rfl,
    alookup_map_entry, hmem]
  simp [App.startStepService, hnocfg]

/-- Witness for `unconfigured_not_autostarted` at the concrete scenario
application and service `"a"`. -/
theorem unconfigured_not_autostarted_witness :
    alookup scenarioApp.services "a" = some scenarioServiceA
    ∧ alookup scenarioApp.configServices "a" = none
    ∧ alookup ((scenarioApp.startEnabledServices).1).services "a" = some scenarioServiceA :=
  ⟨by decide, by decide,
   (unconfigured_not_autostarted scenarioApp "a" scenarioServiceA
     (by decide) (by decide)).1⟩

/-- A service `"a"` whose manager start succeeds, in the failure-isolation
scenario. -/
def isolationServiceA : Service := Service.init (some "a") "AService" none none

/-- A service `"b"` whose manager start raises `"boom"`, in the
failure-isolation scenario. -/
def isolationServiceB : Service := Service.init (some "b") "BService" (some "boom") none

/-- An initialized application with `"a"` and `"b"` registered, both carrying
a (default, `enabled = true`) configuration entry. -/
def isolationApp : App :=
  App.mk true [("a", {}), ("b", {})]
    [("a", isolationServiceA), ("b", isolationServiceB)] ServiceState.STOPPED

/-- C2: the claim as stated is false in its "failing service reaches ERROR"
part: the enabled-services loop catches the exception and only logs it, and
the service's own failure path calls `set_error`, which records the message
without moving the state to ERROR. In the concrete two-service run where
`"b"`'s manager raises `"boom"`, `"a"` reaches RUNNING and `"b"` ends with a
non-null error message but in state STARTING, not ERROR. -/
theorem bulk_start_error_state_counterexample :
    (isolationApp.startEnabledServices).1.getService "a" =
      some { isolationServiceA with status := { isolationServiceA.status with
        state := ServiceState.RUNNING, error := none } }
    ∧ ((isolationApp.startEnabledServices).1.getService "b").map
        (fun s => s.status.state) = some ServiceState.STARTING
    ∧ ((isolationApp.startEnabledServices).1.getService "b").map
        (fun s => s.status.error) = some (some "Failed to start monitoring: boom")
    ∧ ServiceState.STARTING ≠ ServiceState.ERROR := by
  refine ⟨by decide, by decide, by decide, by decide⟩

/-- C2 (amended): the bulk operations isolate failures and return normally
(they are total and report failures only through the returned log records):
under `start_enabled_services`, every configured-and-enabled service whose
manager start succeeds reaches RUNNING with a cleared error, and every one
whose manager start raises `e` keeps a non-null
`"Failed to start monitoring: e"` error message but remains in state
STARTING (the code never sets ERROR); under `stop`
(`stop_all_services`), every registered service is attempted and ends as its
own stop leaves it. -/
theorem bulk_start_isolation (app : App) (name : String) (svc : Service)
    (cfg : ServiceConfiguration)
    (hmem : alookup app.services name = some svc)
    (hcfg : alookup app.configServices name = some cfg)
    (hen : cfg.enabled = true) :
    (svc.managerStart = none →
      alookup ((app.startEnabledServices).1).services name =
        some { svc with status := { svc.status with
          state := ServiceState.RUNNING, error := none } })
    ∧ (∀ e, svc.managerStart = some e →
      alookup ((app.startEnabledServices).1).services name =
        some { svc with status := { svc.status with
          state := ServiceState.STARTING,
          error := some (s!"Failed to start monitoring: {e}") } })
    ∧ (app.setupComplete = true →
      alookup ((app.stop).1).services name = some ((svc.stopEx).1)) := by
  have hmap : alookup ((app.startEnabledServices).1).services name
      = some (App.startStepService app.configServices name svc) := by
    rw [show ((app.startEnabledServices).1).services = app.services.map
        (fun e => (e.1, App.startStepService app.configServices e.1 e.2)) from rfl,
      alookup_map_entry, hmem]
    rfl
  refine ⟨?_, ?_, ?_⟩
  · intro hms
    rw [hmap]
    simp only [App.startStepService, hcfg]
    rw [if_pos hen]
    simp only [Service.startEx, hms]
    simp [Service.startBase, hms]
  · intro e hms
    rw [hmap]
    simp only [App.startStepService, hcfg]
    rw [if_pos hen]
    simp only [Service.startEx, hms]
    simp [Service.startBase, Service.setError, hms]
  · intro hsetup
    have hne : ¬ (app.setupComplete = false) := by simp [hsetup]
    have hsv : ((app.stop).1).services
        = app.services.map (fun e => (e.1, (e.2.stopEx).1)) := by
      simp only [App.stop]
      rw [if_neg hne]
    rw [hsv]
    have h2 := alookup_map_entry (fun _ s => (s.stopEx).1) app.services name
    rw [hmem] at h2
    simpa using h2

/-- Witness for `bulk_start_isolation` at the concrete two-service
application, on the failing service `"b"`. -/
theorem bulk_start_isolation_witness :
    alookup isolationApp.services "b" = some isolationServiceB
    ∧ alookup isolationApp.configServices "b" = some ({} : ServiceConfiguration)
    ∧ ({} : ServiceConfiguration).enabled = true
    ∧ alookup ((isolationApp.startEnabledServices).1).services "b" =
        some { isolationServiceB with status := { isolationServiceB.status with
          state := ServiceState.STARTING,
          error := some "Failed to start monitoring: boom" } } :=
  ⟨by decide, by decide, rfl,
   (bulk_start_isolation isolationApp "b" isolationServiceB {}
     (by decide) (by decide) rfl).2.1 "boom" rfl⟩

end Processpype
